import Mathlib

/-!
Shallow embedding of the launchpad-io/user-service repository (Python/FastAPI)
and proofs about its specified behavior.

The embedding models:
  - app/core/security.py        (validate_password_strength)
  - app/core/config.py          (Settings.assemble_cors_origins)
  - app/services/email_service.py (EmailService._send_email)
  - app/services/auth_service.py  (AuthService: _create_token, _generate_username,
                                   signup, login, verify_email, request_password_reset)
  - app/utils/dependencies.py   (get_current_user, get_current_verified_user,
                                 get_optional_current_user)
  - app/api/v1/users.py         (resend_verification_email endpoint)

Database state is modelled as explicit lists of rows; external primitives
(bcrypt verification, JWT encoding, random token generation, SMTP transport)
are passed in as explicit function parameters, since the Python code calls
them as opaque library primitives.  Character classes (isupper/islower/isdigit)
are modelled on the ASCII range.
-/

namespace LaunchpadUserService

/-- Roles, from app/models/user.py (UserRole). -/
inductive UserRole
  | creator
  | agency
  | brand
deriving DecidableEq, Repr

/-- Token types, from app/models/user_token.py (TokenType). -/
inductive TokenType
  | email_verification
  | reset_password
  | oauth
  | refresh
  | api_key
  | access
deriving DecidableEq, Repr

/-- A user row.  The repository holds two overlapping drafts of the user model:
app/models/user.py declares an `is_verified` flag together with inline
`verification_token` fields, while app/services/auth_service.py works with an
`email_verified` flag.  Both appear here so each piece of code can be embedded
against the exact field name it reads.  Timestamps are modelled as Nat
(seconds); nullable columns are Option. -/
structure User where
  id : Nat
  email : String
  username : String := ""
  hashed_password : String := ""
  role : UserRole := UserRole.creator
  is_active : Bool := true
  email_verified : Bool := false
  is_verified : Bool := false
  tiktok_username : Option String := none
  full_name : Option String := none
  first_name : Option String := none
  last_name : Option String := none
  company_name : Option String := none
  website_url : Option String := none
  profile_completion_percentage : Nat := 0
  verification_token : Option String := none
  verification_token_expires : Option Nat := none
  last_login : Option Nat := none
deriving DecidableEq, Repr

/-- A user_tokens row, from app/models/user_token.py (UserToken). -/
structure UserToken where
  id : Nat
  user_id : Nat
  token_type : TokenType
  token_value : String
  expires_at : Option Nat := none
  is_used : Bool := false
deriving DecidableEq, Repr

/-- UserToken.is_expired: no expiry means never expired, otherwise expired
once the current time has passed `expires_at`
(datetime.now(timezone.utc) > self.expires_at). -/
def UserToken.is_expired (now : Nat) (t : UserToken) : Bool :=
  match t.expires_at with
  | none => false
  | some e => decide (e < now)

/-- The database state visible to the service layer: the users table and the
user_tokens table. -/
structure DB where
  users : List User
  tokens : List UserToken
deriving DecidableEq, Repr

/-! ## app/core/security.py -/

/-- validate_password_strength from app/core/security.py: length >= 8, then
an uppercase letter, then a lowercase letter, then a digit; returns the
message of the first violated rule, or (true, "") when all pass. -/
def validate_password_strength (password : String) : Bool × String :=
  if password.length < 8 then
    (false, "Password must be at least 8 characters long")
  else if !(password.data.any Char.isUpper) then
    (false, "Password must contain at least one uppercase letter")
  else if !(password.data.any Char.isLower) then
    (false, "Password must contain at least one lowercase letter")
  else if !(password.data.any Char.isDigit) then
    (false, "Password must contain at least one number")
  else
    (true, "")

/-! ## app/core/config.py -/

/-- Python str.strip(chars): remove leading and trailing characters drawn
from the given set. -/
def pyStripChars (s : String) (chars : List Char) : String :=
  String.mk (((s.data.dropWhile (fun c => chars.contains c)).reverse.dropWhile
    (fun c => chars.contains c)).reverse)

/-- ASCII whitespace characters stripped by Python str.strip(). -/
def pyWhitespace : List Char :=
  [' ', '\t', '\n', '\r', Char.ofNat 11, Char.ofNat 12]

/-- Python str.strip() with no argument: strip whitespace from both ends. -/
def pyStrip (s : String) : String :=
  pyStripChars s pyWhitespace

/-- Python s.startswith(p). -/
def pyStartsWith (s p : String) : Bool :=
  p.data.isPrefixOf s.data

/-- Python membership test `c in s` for a single character. -/
def pyContainsChar (s : String) (c : Char) : Bool :=
  s.data.contains c

/-- Python s.split(sep) for a one-character separator. -/
def pySplitChar (s : String) (sep : Char) : List String :=
  (s.data.splitOn sep).map String.mk

/-- JSON whitespace skipping. -/
def skipWs (l : List Char) : List Char :=
  l.dropWhile (fun c => c == ' ' || c == '\t' || c == '\n' || c == '\r')

/-- Value of a hexadecimal digit, if any. -/
def hexDigitVal (c : Char) : Option Nat :=
  if '0' ≤ c ∧ c ≤ '9' then some (c.toNat - '0'.toNat)
  else if 'a' ≤ c ∧ c ≤ 'f' then some (c.toNat - 'a'.toNat + 10)
  else if 'A' ≤ c ∧ c ≤ 'F' then some (c.toNat - 'A'.toNat + 10)
  else none

/-- Single-character JSON escapes of RFC 8259, as (escape, decoded) pairs. -/
def jsonEscTable : List (Char × Char) :=
  [('"', '"'), ('\\', '\\'), ('/', '/'), ('b', Char.ofNat 8), ('f', Char.ofNat 12),
   ('n', Char.ofNat 10), ('r', Char.ofNat 13), ('t', Char.ofNat 9)]

/-- Decoded character of a single-character JSON escape, if it is one. -/
def jsonEscChar (c : Char) : Option Char :=
  (jsonEscTable.find? (fun pr => pr.1 == c)).map (fun pr => pr.2)

/-- Body of a JSON string literal (after the opening quote), fuel-indexed for
structural termination.  Returns the decoded string and the rest of the input
after the closing quote. -/
def parseJsonStringAux : Nat → List Char → List Char → Option (String × List Char)
  | 0, _, _ => none
  | _ + 1, [], _ => none
  | fuel + 1, c :: rest, acc =>
    if c == '"' then
      some (String.mk acc.reverse, rest)
    else if c == '\\' then
      match rest with
      | [] => none
      | e :: rest2 =>
        if e == 'u' then
          match rest2 with
          | h1 :: h2 :: h3 :: h4 :: rest3 =>
            match hexDigitVal h1, hexDigitVal h2, hexDigitVal h3, hexDigitVal h4 with
            | some a, some b, some c3, some d =>
              parseJsonStringAux fuel rest3 (Char.ofNat (((a * 16 + b) * 16 + c3) * 16 + d) :: acc)
            | _, _, _, _ => none
          | _ => none
        else
          match jsonEscChar e with
          | some ec => parseJsonStringAux fuel rest2 (ec :: acc)
          | none => none
    else
      parseJsonStringAux fuel rest (c :: acc)

/-- Parse a JSON string literal starting at the opening quote. -/
def parseJsonString (fuel : Nat) (l : List Char) : Option (String × List Char) :=
  match l with
  | '"' :: rest => parseJsonStringAux fuel rest []
  | _ => none

/-- Comma-separated JSON string items up to the closing bracket.  The input
starts at the first item (whitespace already skipped). -/
def parseJsonItems : Nat → List Char → Option (List String × List Char)
  | 0, _ => none
  | fuel + 1, l =>
    match parseJsonString (fuel + 1) l with
    | none => none
    | some (s, rest) =>
      match skipWs rest with
      | ',' :: rest2 =>
        match parseJsonItems fuel (skipWs rest2) with
        | some (items, rest3) => some (s :: items, rest3)
        | none => none
      | ']' :: rest2 => some ([s], rest2)
      | _ => none

/-- Model of json.loads restricted to JSON arrays of strings, which is the
shape the BACKEND_CORS_ORIGINS setting (List[str]) accepts; any other JSON
document counts as a parse failure. -/
def jsonLoadsStrList (s : String) : Option (List String) :=
  match skipWs s.data with
  | '[' :: rest =>
    match skipWs rest with
    | ']' :: rest2 => if (skipWs rest2).isEmpty then some [] else none
    | body =>
      match parseJsonItems (s.length + 1) body with
      | some (items, rest2) => if (skipWs rest2).isEmpty then some items else none
      | none => none
  | _ => none

/-- Possible runtime shapes of the BACKEND_CORS_ORIGINS environment value
handed to the validator (Union[str, List[str]], or anything else). -/
inductive CorsInput
  | str (s : String)
  | list (l : List String)
  | other (asString : String)
deriving DecidableEq, Repr

/-- Settings.assemble_cors_origins from app/core/config.py: a string starting
with a bracket is parsed as JSON (on failure, stripped of brackets, quotes and
whitespace and wrapped as a singleton); a comma-separated string is split and
trimmed; any other string is trimmed and wrapped; a list passes through; any
other value is stringified and wrapped. -/
def assemble_cors_origins : CorsInput → List String
  | CorsInput.str v =>
    if pyStartsWith v "[" then
      match jsonLoadsStrList v with
      | some l => l
      | none => [pyStrip (pyStripChars (pyStripChars v ['[', ']']) ['"'])]
    else if pyContainsChar v ',' then
      (pySplitChar v ',').map pyStrip
    else
      [pyStrip v]
  | CorsInput.list l => l
  | CorsInput.other r => [r]

/-! ## app/services/email_service.py -/

/-- The slice of Settings that EmailService reads.  Falsiness of the SMTP
fields mirrors Python: an empty string or a zero port fails the
all([...]) configuration check. -/
structure EmailConfig where
  enabled : Bool
  smtp_host : String
  smtp_port : Nat
  smtp_user : String
  smtp_password : String
  smtp_tls : Bool
deriving DecidableEq, Repr

/-- Observable outcome of EmailService._send_email: the boolean the method
returns, plus whether any SMTP connection was attempted. -/
structure SendOutcome where
  sent : Bool
  smtpContacted : Bool
deriving DecidableEq, Repr

/-- EmailService._send_email from app/services/email_service.py.  When the
enable flag is off, it logs and returns False without touching the network;
when the configuration is incomplete, likewise.  Otherwise it attempts the
SMTP transaction, whose result (success, or any caught exception) is the
`transport` parameter: every failure path returns False. -/
def _send_email (cfg : EmailConfig) (transport : Option Bool)
    (_to _subject _html_body _text_body : String) : SendOutcome :=
  if !cfg.enabled then
    { sent := false, smtpContacted := false }
  else if !(cfg.smtp_host != "" && cfg.smtp_port != 0 && cfg.smtp_user != ""
      && cfg.smtp_password != "") then
    { sent := false, smtpContacted := false }
  else
    match transport with
    | some ok => { sent := ok, smtpContacted := true }
    | none => { sent := false, smtpContacted := true }

/-! ## app/services/auth_service.py -/

/-- db.query(User).filter(or_(User.email == x, User.username == x)).first() -/
def findUserByEmailOrUsername (db : DB) (x : String) : Option User :=
  db.users.find? (fun u => u.email == x || u.username == x)

/-- db.query(User).filter(User.email == e).first() -/
def findUserByEmail (db : DB) (e : String) : Option User :=
  db.users.find? (fun u => u.email == e)

/-- db.query(User).filter(User.id == uid).first() (AuthService.get_user_by_id) -/
def findUserById (db : DB) (uid : Nat) : Option User :=
  db.users.find? (fun u => u.id == uid)

/-- An ORM UPDATE of the single user row with the given primary key. -/
def updateUser (db : DB) (uid : Nat) (f : User → User) : DB :=
  { db with users := db.users.map (fun u => if u.id == uid then f u else u) }

/-- AuthService._create_token: mark every unused token of the same type for
the same user as used, then insert the fresh token (unused, expiring
`expires_hours` hours from now).  The random token value and the new row id
come from outside (secrets-based generation / column default). -/
def _create_token (db : DB) (user_id : Nat) (token_type : TokenType)
    (new_id : Nat) (token_value : String) (now : Nat) (expires_hours : Nat) :
    DB × UserToken :=
  let invalidated := db.tokens.map (fun t =>
    if t.user_id == user_id && t.token_type == token_type && !t.is_used then
      { t with is_used := true }
    else t)
  let user_token : UserToken :=
    { id := new_id, user_id := user_id, token_type := token_type,
      token_value := token_value, expires_at := some (now + expires_hours * 3600),
      is_used := false }
  ({ db with tokens := invalidated ++ [user_token] }, user_token)

/-- Result of AuthService.login.  An `err` is the message of the ValueError
the method raises. -/
inductive LoginResult
  | ok (db : DB) (user : User) (access_token : String)
  | err (msg : String)
deriving DecidableEq, Repr

/-- AuthService.login: look up by email or username; a miss and a password
mismatch both raise the same "Invalid credentials"; then the active and
email-verified gates; on success, set last_login to the current time and
return the user with a freshly issued access token.  bcrypt verification
(verify_password) and JWT issuance (create_access_token) are opaque
primitives passed as parameters. -/
def login (verify_password : String → String → Bool)
    (create_access_token : String → Bool → String)
    (now : Nat) (db : DB) (email password : String) (remember_me : Bool) :
    LoginResult :=
  match findUserByEmailOrUsername db email with
  | none => LoginResult.err "Invalid credentials"
  | some user =>
    if !(verify_password password user.hashed_password) then
      LoginResult.err "Invalid credentials"
    else if !user.is_active then
      LoginResult.err "Account is deactivated. Please contact support."
    else if !user.email_verified then
      LoginResult.err "Please verify your email before logging in."
    else
      LoginResult.ok
        (updateUser db user.id (fun u => { u with last_login := some now }))
        { user with last_login := some now }
        (create_access_token (toString user.id) remember_me)

/-- The lookup predicate of AuthService.verify_email: an unused
email_verification token with the given value. -/
def evTokenPred (tval : String) (t : UserToken) : Bool :=
  t.token_value == tval && t.token_type == TokenType.email_verification && !t.is_used

/-- An ORM UPDATE of the one row returned by .first(): mark the first list
element satisfying the predicate as used, leaving everything else alone. -/
def markFirstTokenUsed (p : UserToken → Bool) : List UserToken → List UserToken
  | [] => []
  | t :: ts =>
    if p t then { t with is_used := true } :: ts
    else t :: markFirstTokenUsed p ts

/-- Result of AuthService.verify_email.  `crash` is the unhandled exception
that token.user raises when the owning row is missing (never happens under
the foreign-key constraint). -/
inductive VerifyResult
  | ok (db : DB) (user : User)
  | err (msg : String)
  | crash
deriving DecidableEq, Repr

/-- AuthService.verify_email: find an unused email_verification token by
value ("Invalid verification token" if none), reject expired tokens and
already-verified owners, otherwise set the owner verified, raise
profile completion to at least 40, mark the token used, and return the user.
The welcome email is fire-and-forget and does not affect the result. -/
def verify_email (now : Nat) (db : DB) (tval : String) : VerifyResult :=
  match db.tokens.find? (evTokenPred tval) with
  | none => VerifyResult.err "Invalid verification token"
  | some tok =>
    if tok.is_expired now then
      VerifyResult.err "Verification token has expired"
    else
      match findUserById db tok.user_id with
      | none => VerifyResult.crash
      | some user =>
        if user.email_verified then
          VerifyResult.err "Email already verified"
        else
          let db' : DB :=
            { users := db.users.map (fun u =>
                if u.id == user.id then
                  { u with email_verified := true,
                           profile_completion_percentage :=
                             max u.profile_completion_percentage 40 }
                else u),
              tokens := markFirstTokenUsed (evTokenPred tval) db.tokens }
          VerifyResult.ok db'
            { user with email_verified := true,
                        profile_completion_percentage :=
                          max user.profile_completion_percentage 40 }

/-- Result of AuthService.request_password_reset: the updated database, the
list of (recipient, token value) reset emails dispatched, and the returned
message. -/
structure ResetRequestResult where
  db : DB
  emails : List (String × String)
  message : String
deriving DecidableEq, Repr

/-- AuthService.request_password_reset: on a lookup miss, return the generic
message untouched; otherwise create a reset_password token with a 1-hour
expiry (via _create_token), email it, and return the same generic message. -/
def request_password_reset (db : DB) (email : String)
    (new_id : Nat) (token_value : String) (now : Nat) : ResetRequestResult :=
  match findUserByEmail db email with
  | none =>
    { db := db, emails := [],
      message := "If your email is registered, you will receive a password reset link." }
  | some user =>
    let created := _create_token db user.id TokenType.reset_password new_id token_value now 1
    { db := created.1, emails := [(user.email, created.2.token_value)],
      message := "If your email is registered, you will receive a password reset link." }

/-- Python `a or b` on an optional string: None and "" are falsy. -/
def pyOrS (a : Option String) (b : String) : String :=
  match a with
  | some s => if s == "" then b else s
  | none => b

/-- Python s.strip().split(' ', 1). -/
def splitNameOnce (s : String) : List String :=
  let t := pyStrip s
  match t.splitOn " " with
  | [] => [t]
  | first :: rest => if rest.isEmpty then [first] else [first, String.intercalate " " rest]

/-- AuthService._generate_username.  The source computes a base username from
the email local part (or, for brands/agencies, from the company name), then
enters a uniqueness loop that reads a variable `db` that is neither a
parameter nor otherwise in scope, so the first loop iteration raises
NameError; the embedding surfaces that as an error value. -/
def _generate_username (email : String) (role : UserRole)
    (company_name : Option String) : Except String String :=
  let base_username := ((email.splitOn "@").headD "").toLower
  let _base_username :=
    if (role == UserRole.brand || role == UserRole.agency) && (pyOrS company_name "") != "" then
      (String.mk (((pyOrS company_name "").data.map
        (fun c => if c.isAlphanum then c.toLower else '_'))) |>
        (fun s => pyStripChars s ['_'])).take 50
    else base_username
  Except.error "NameError: name db is not defined"

/-- The signup payload (schemas SignupRequest / UserCreate), restricted to
the fields AuthService.signup reads. -/
structure SignupRequest where
  email : String
  password : String
  role : UserRole
  full_name : Option String := none
  tiktok_username : Option String := none
  company_name : Option String := none
  contact_full_name : Option String := none
  website : Option String := none
deriving DecidableEq, Repr

/-- Result of AuthService.signup.  `err` carries a raised ValueError message;
`crash` carries an unhandled exception (the NameError from
_generate_username). -/
inductive SignupResult
  | ok (db : DB) (user : User) (message : String)
  | err (msg : String)
  | crash (reason : String)
deriving DecidableEq, Repr

/-- AuthService.signup: reject an already-registered email, validate password
strength, generate a username (which raises NameError in this source, see
_generate_username), then build the role-specific user row, create an
email_verification token with a 24-hour expiry and send the verification
email.  There is no TikTok-handle uniqueness check anywhere in this method.
Hashing, ids, the random token value and the email transport are opaque
inputs. -/
def signup (db : DB) (r : SignupRequest)
    (hash_password : String → String)
    (new_user_id new_token_id : Nat) (token_value : String) (now : Nat)
    (send_verification : String → String → String → Bool) : SignupResult :=
  if (db.users.find? (fun u => u.email == r.email)).isSome then
    SignupResult.err "Email already registered"
  else
    let strength := validate_password_strength r.password
    if !strength.1 then
      SignupResult.err strength.2
    else
      match _generate_username r.email r.role r.company_name with
      | Except.error e => SignupResult.crash e
      | Except.ok username =>
        let base : User :=
          { id := new_user_id, email := r.email, username := username,
            hashed_password := hash_password r.password, role := r.role,
            is_active := true, email_verified := false,
            profile_completion_percentage := 30 }
        let user : User :=
          match r.role with
          | UserRole.creator =>
            let parts := splitNameOnce (pyOrS r.full_name "")
            { base with first_name := parts.head?,
                        last_name := parts[1]?,
                        tiktok_username := r.tiktok_username }
          | _ =>
            let withContact :=
              match r.contact_full_name with
              | some cfn =>
                let parts := splitNameOnce cfn
                { base with company_name := r.company_name,
                            first_name := parts.head?, last_name := parts[1]?,
                            website_url := r.website }
              | none =>
                { base with company_name := r.company_name, website_url := r.website }
            withContact
        let db1 : DB := { db with users := db.users ++ [user] }
        let created := _create_token db1 user.id TokenType.email_verification
          new_token_id token_value now 24
        let email_sent := send_verification user.email
          (pyOrS user.full_name (pyOrS user.company_name "there")) created.2.token_value
        let message :=
          if email_sent then
            "Account created successfully. Please check your email to verify your account."
          else
            "Account created successfully. Verification email could not be sent."
        SignupResult.ok created.1 user message

/-! ## app/utils/dependencies.py and app/api/v1/users.py -/

/-- Outcome of a request-authentication dependency: the resolved user, or the
HTTPException (status, detail) it raises. -/
inductive AuthOutcome
  | ok (u : User)
  | httpError (status : Nat) (detail : String)
deriving DecidableEq, Repr

/-- get_current_user from app/utils/dependencies.py: decode the bearer token
(JWT decoding is the opaque `decode` parameter, returning the subject user id
or none on any JWTError), 401 on a decode failure or a missing user, 403 on
an inactive user. -/
def get_current_user (decode : String → Option Nat) (db : DB) (token : String) :
    AuthOutcome :=
  match decode token with
  | none => AuthOutcome.httpError 401 "Invalid authentication credentials"
  | some user_id =>
    match findUserById db user_id with
    | none => AuthOutcome.httpError 401 "User not found"
    | some user =>
      if !user.is_active then AuthOutcome.httpError 403 "Inactive user"
      else AuthOutcome.ok user

/-- get_current_verified_user: on top of get_current_user, 403 unless the
user's is_verified flag is set. -/
def get_current_verified_user (decode : String → Option Nat) (db : DB)
    (token : String) : AuthOutcome :=
  match get_current_user decode db token with
  | AuthOutcome.ok u =>
    if !u.is_verified then
      AuthOutcome.httpError 403 "Please verify your email first"
    else AuthOutcome.ok u
  | e => e

/-- get_optional_current_user: absent credentials resolve to none; a decode
failure resolves to none (the bare except swallows everything); a decoded
subject is looked up and returned as-is — with no is_active check. -/
def get_optional_current_user (decode : String → Option Nat) (db : DB)
    (credentials : Option String) : Option User :=
  match credentials with
  | none => none
  | some token =>
    match decode token with
    | some user_id => findUserById db user_id
    | none => none

/-- Outcome of the POST /users/resend-verification endpoint. -/
inductive EndpointOutcome
  | ok (db : DB) (message : String)
  | httpError (status : Nat) (detail : String)
deriving DecidableEq, Repr

/-- resend_verification_email from app/api/v1/users.py, composed with its
get_current_verified_user dependency, for a caller already authenticated as
`current_user` (the get_current_user stage resolved them).  The dependency
rejects unverified callers with 403 before the handler body runs; the handler
then rejects verified callers with 400, stores a fresh inline verification
token on the user, and reports success or a 500 depending on the email
transport. -/
def resend_verification_email (db : DB) (current_user : User)
    (gen_token : String) (gen_expires : Nat)
    (send_verification : String → String → String → Bool) : EndpointOutcome :=
  if !current_user.is_verified then
    EndpointOutcome.httpError 403 "Please verify your email first"
  else if current_user.is_verified then
    EndpointOutcome.httpError 400 "Email already verified"
  else
    let db' := updateUser db current_user.id (fun u =>
      { u with verification_token := some gen_token,
               verification_token_expires := some gen_expires })
    let display_name := pyOrS current_user.full_name
      (pyOrS current_user.company_name "there")
    if send_verification current_user.email display_name gen_token then
      EndpointOutcome.ok db' "Verification email sent successfully"
    else
      EndpointOutcome.httpError 500 "Failed to send verification email"

/-! ## Theorems -/

/-- C8: validate_password_strength applies its rules in order — length at
least 8, an uppercase letter, a lowercase letter, a digit — returning the
first violated rule's message and (true, "") when all pass; in particular
"short1A" fails length, "alllowercase1" fails uppercase, "ALLUPPERCASE1"
fails lowercase, "NoDigitsHere" fails digit, and "ValidPass1" passes. -/
theorem C8_password_strength_order :
    (∀ p : String, p.length < 8 →
      validate_password_strength p = (false, "Password must be at least 8 characters long"))
  ∧ (∀ p : String, 8 ≤ p.length → p.data.any Char.isUpper = false →
      validate_password_strength p =
        (false, "Password must contain at least one uppercase letter"))
  ∧ (∀ p : String, 8 ≤ p.length → p.data.any Char.isUpper = true →
      p.data.any Char.isLower = false →
      validate_password_strength p =
        (false, "Password must contain at least one lowercase letter"))
  ∧ (∀ p : String, 8 ≤ p.length → p.data.any Char.isUpper = true →
      p.data.any Char.isLower = true → p.data.any Char.isDigit = false →
      validate_password_strength p = (false, "Password must contain at least one number"))
  ∧ (∀ p : String, 8 ≤ p.length → p.data.any Char.isUpper = true →
      p.data.any Char.isLower = true → p.data.any Char.isDigit = true →
      validate_password_strength p = (true, ""))
  ∧ validate_password_strength "short1A" =
      (false, "Password must be at least 8 characters long")
  ∧ validate_password_strength "alllowercase1" =
      (false, "Password must contain at least one uppercase letter")
  ∧ validate_password_strength "ALLUPPERCASE1" =
      (false, "Password must contain at least one lowercase letter")
  ∧ validate_password_strength "NoDigitsHere" =
      (false, "Password must contain at least one number")
  ∧ validate_password_strength "ValidPass1" = (true, "") := by
  refine ⟨?_, ?_, ?_, ?_, ?_, ?_, ?_, ?_, ?_, ?_⟩
  · intro p h1
    simp [validate_password_strength, h1]
  · intro p h1 h2
    simp [validate_password_strength, Nat.not_lt.mpr h1, h2]
  · intro p h1 h2 h3
    simp [validate_password_strength, Nat.not_lt.mpr h1, h2, h3]
  · intro p h1 h2 h3 h4
    simp [validate_password_strength, Nat.not_lt.mpr h1, h2, h3, h4]
  · intro p h1 h2 h3 h4
    simp [validate_password_strength, Nat.not_lt.mpr h1, h2, h3, h4]
  · decide
  · decide
  · decide
  · decide
  · decide

/-- Witness for C8: the length rule and the digit rule applied at the spec's
concrete passwords. -/
theorem C8_password_strength_order_witness :
    validate_password_strength "short1A" =
      (false, "Password must be at least 8 characters long")
  ∧ validate_password_strength "NoDigitsHere" =
      (false, "Password must contain at least one number") :=
  ⟨C8_password_strength_order.1 "short1A" (by decide),
   C8_password_strength_order.2.2.2.1 "NoDigitsHere" (by decide) (by decide)
     (by decide) (by decide)⟩

/-- C7 counterexample: with the mail-enabled flag false, _send_email does
contact no SMTP server, but it reports failure (returns False), not success,
so the claim as stated fails at this concrete input. -/
theorem C7_disabled_mail_counterexample :
    ¬ ((_send_email
          { enabled := false, smtp_host := "smtp.gmail.com", smtp_port := 587,
            smtp_user := "u", smtp_password := "p", smtp_tls := true }
          (some true) "to@x.com" "subject" "html" "text").smtpContacted = false
      ∧ (_send_email
          { enabled := false, smtp_host := "smtp.gmail.com", smtp_port := 587,
            smtp_user := "u", smtp_password := "p", smtp_tls := true }
          (some true) "to@x.com" "subject" "html" "text").sent = true) := by
  decide

/-- C7 (amended): when the mail-enabled flag is false, _send_email contacts
no SMTP server and reports failure (returns False) to its caller. -/
theorem C7_disabled_mail_reports_failure (cfg : EmailConfig) (transport : Option Bool)
    (recipient subject html text : String) (h : cfg.enabled = false) :
    _send_email cfg transport recipient subject html text =
      { sent := false, smtpContacted := false } := by
  simp [_send_email, h]

/-- Witness for C7's amended theorem at a concrete disabled configuration. -/
theorem C7_disabled_mail_reports_failure_witness :
    _send_email
      { enabled := false, smtp_host := "smtp.gmail.com", smtp_port := 587,
        smtp_user := "u", smtp_password := "p", smtp_tls := true }
      (some true) "to@x.com" "subject" "html" "text" =
      { sent := false, smtpContacted := false } :=
  C7_disabled_mail_reports_failure _ _ _ _ _ _ rfl

/-- C9: assemble_cors_origins maps a JSON array string to the parsed list, a
comma-separated string to the trimmed items, a single bare string to a
trimmed singleton, a structured list to itself, and a bracketed string that
fails JSON parsing to a singleton of the raw string stripped of surrounding
brackets, quotes and whitespace. -/
theorem C9_cors_origins_normalization :
    assemble_cors_origins (CorsInput.str "[\"http://a.com\",\"http://b.com\"]") =
      ["http://a.com", "http://b.com"]
  ∧ assemble_cors_origins (CorsInput.str "http://a.com,http://b.com") =
      ["http://a.com", "http://b.com"]
  ∧ assemble_cors_origins (CorsInput.str "http://a.com") = ["http://a.com"]
  ∧ (∀ l : List String, assemble_cors_origins (CorsInput.list l) = l)
  ∧ (∀ s l, pyStartsWith s "[" = true → jsonLoadsStrList s = some l →
      assemble_cors_origins (CorsInput.str s) = l)
  ∧ (∀ s, pyStartsWith s "[" = true → jsonLoadsStrList s = none →
      assemble_cors_origins (CorsInput.str s) =
        [pyStrip (pyStripChars (pyStripChars s ['[', ']']) ['"'])])
  ∧ assemble_cors_origins (CorsInput.str "[not json") = ["not json"] := by
  refine ⟨by decide, by decide, by decide, ?_, ?_, ?_, by decide⟩
  · intro l
    rfl
  · intro s l h1 h2
    simp [assemble_cors_origins, h1, h2]
  · intro s h1 h2
    simp [assemble_cors_origins, h1, h2]

/-- Witness for C9: the JSON-success clause and the JSON-failure clause at
concrete bracketed inputs. -/
theorem C9_cors_origins_normalization_witness :
    assemble_cors_origins (CorsInput.str "[\"http://x.io\"]") = ["http://x.io"]
  ∧ assemble_cors_origins (CorsInput.str "[broken") = ["broken"] :=
  ⟨C9_cors_origins_normalization.2.2.2.2.1 "[\"http://x.io\"]" ["http://x.io"]
     (by decide) (by decide),
   C9_cors_origins_normalization.2.2.2.2.2.1 "[broken" (by decide) (by decide)⟩

/-- C10: the optional request-authentication dependency resolves absent or
undecodable credentials to no user without raising, yet returns a
soft-deactivated (is_active = false) user as authenticated when the token is
valid, while the strict dependency rejects that same user with 403. -/
theorem C10_optional_auth_inactive_user (decode : String → Option Nat) (db : DB) :
    get_optional_current_user decode db none = none
  ∧ (∀ t, decode t = none → get_optional_current_user decode db (some t) = none)
  ∧ (∀ t uid u, decode t = some uid → findUserById db uid = some u →
      u.is_active = false →
      get_optional_current_user decode db (some t) = some u
    ∧ get_current_user decode db t = AuthOutcome.httpError 403 "Inactive user") := by
  refine ⟨rfl, ?_, ?_⟩
  · intro t h
    simp [get_optional_current_user, h]
  · intro t uid u h1 h2 h3
    exact ⟨by simp [get_optional_current_user, h1, h2],
           by simp [get_current_user, h1, h2, h3]⟩

/-- Witness for C10 at a concrete decoder, database, and inactive user. -/
theorem C10_optional_auth_inactive_user_witness :
    get_optional_current_user (fun t => if t == "jwt" then some 1 else none)
        { users := [{ id := 1, email := "a@x.com", is_active := false }], tokens := [] }
        (some "jwt") =
      some { id := 1, email := "a@x.com", is_active := false }
  ∧ get_current_user (fun t => if t == "jwt" then some 1 else none)
        { users := [{ id := 1, email := "a@x.com", is_active := false }], tokens := [] }
        "jwt" = AuthOutcome.httpError 403 "Inactive user" :=
  (C10_optional_auth_inactive_user (fun t => if t == "jwt" then some 1 else none)
      { users := [{ id := 1, email := "a@x.com", is_active := false }], tokens := [] }).2.2
    "jwt" 1 { id := 1, email := "a@x.com", is_active := false } (by decide) (by decide)
    (by decide)

/-- C4: request_password_reset returns byte-identical success message text
whether or not the email is registered; only the internal side effects
(reset-token creation, email dispatch) differ. -/
theorem C4_reset_request_noninterference
    (db1 db2 : DB) (e1 e2 : String) (id1 id2 : Nat) (tv1 tv2 : String) (n1 n2 : Nat)
    (_hreg : (findUserByEmail db1 e1).isSome = true)
    (hunreg : findUserByEmail db2 e2 = none) :
    (request_password_reset db1 e1 id1 tv1 n1).message =
      (request_password_reset db2 e2 id2 tv2 n2).message := by
  unfold request_password_reset
  rw [hunreg]
  cases h : findUserByEmail db1 e1 with
  | none => rfl
  | some u => rfl

/-- Witness for C4: a database in which the email is registered versus an
empty database. -/
theorem C4_reset_request_noninterference_witness :
    (request_password_reset
        { users := [{ id := 1, email := "alice@x.com" }], tokens := [] }
        "alice@x.com" 5 "rtok" 0).message =
      (request_password_reset { users := [], tokens := [] }
        "ghost@x.com" 6 "rtok2" 0).message :=
  C4_reset_request_noninterference
    { users := [{ id := 1, email := "alice@x.com" }], tokens := [] }
    { users := [], tokens := [] } "alice@x.com" "ghost@x.com" 5 6 "rtok" "rtok2" 0 0
    (by decide) (by decide)

/-- C3: _create_token first marks every prior unused token of the same type
for the same user as used and only then appends the new token, which is
created unused with the requested expiry; immediately afterwards at most one
unused token of that type exists for that user (namely the new one). -/
theorem C3_at_most_one_live_token (db : DB) (uid : Nat) (tt : TokenType)
    (nid : Nat) (tv : String) (now hrs : Nat) :
    (∀ t ∈ ((_create_token db uid tt nid tv now hrs).1).tokens.dropLast,
        t.user_id = uid → t.token_type = tt → t.is_used = true)
  ∧ ((_create_token db uid tt nid tv now hrs).1).tokens.getLast? =
      some (_create_token db uid tt nid tv now hrs).2
  ∧ (_create_token db uid tt nid tv now hrs).2.is_used = false
  ∧ (_create_token db uid tt nid tv now hrs).2.expires_at = some (now + hrs * 3600)
  ∧ (((_create_token db uid tt nid tv now hrs).1).tokens.filter
        (fun t => t.user_id == uid && t.token_type == tt && !t.is_used)) =
      [(_create_token db uid tt nid tv now hrs).2] := by
  refine ⟨?_, ?_, rfl, rfl, ?_⟩
  · intro t ht
    simp only [_create_token, List.dropLast_concat, List.mem_map] at ht
    obtain ⟨y, -, rfl⟩ := ht
    by_cases hc : y.user_id == uid && y.token_type == tt && !y.is_used
    · simp [hc]
    · rw [if_neg hc]
      intro h1 h2
      have hyf : y.is_used = false ∨ y.is_used = true := by
        cases y.is_used
        · exact Or.inl rfl
        · exact Or.inr rfl
      rcases hyf with hyf | hyf
      · exact absurd (by simp [h1, h2, hyf]) hc
      · exact hyf
  · simp [_create_token]
  · simp only [_create_token, List.filter_append]
    have h1 : (db.tokens.map (fun t =>
        if t.user_id == uid && t.token_type == tt && !t.is_used then
          { t with is_used := true } else t)).filter
        (fun t => t.user_id == uid && t.token_type == tt && !t.is_used) = [] := by
      rw [List.filter_eq_nil_iff]
      intro t ht
      simp only [List.mem_map] at ht
      obtain ⟨y, -, rfl⟩ := ht
      by_cases hc : y.user_id == uid && y.token_type == tt && !y.is_used
      · simp [hc]
      · simp [hc]
    rw [h1]
    simp

/-- Witness for C3 at a concrete database with one live token of the same
type: the prior token is marked used and exactly the new token remains
live. -/
theorem C3_at_most_one_live_token_witness :
    ({ id := 1, user_id := 1, token_type := TokenType.email_verification,
       token_value := "old", expires_at := some 86400, is_used := true } : UserToken).is_used
      = true
  ∧ ((_create_token
        { users := [],
          tokens := [{ id := 1, user_id := 1,
                       token_type := TokenType.email_verification,
                       token_value := "old", expires_at := some 86400,
                       is_used := false }] }
        1 TokenType.email_verification 2 "new" 0 24).1).tokens.filter
      (fun t => t.user_id == 1 && t.token_type == TokenType.email_verification
        && !t.is_used) =
      [(_create_token
        { users := [],
          tokens := [{ id := 1, user_id := 1,
                       token_type := TokenType.email_verification,
                       token_value := "old", expires_at := some 86400,
                       is_used := false }] }
        1 TokenType.email_verification 2 "new" 0 24).2] :=
  ⟨(C3_at_most_one_live_token
      { users := [],
        tokens := [{ id := 1, user_id := 1,
                     token_type := TokenType.email_verification,
                     token_value := "old", expires_at := some 86400,
                     is_used := false }] }
      1 TokenType.email_verification 2 "new" 0 24).1
      { id := 1, user_id := 1, token_type := TokenType.email_verification,
        token_value := "old", expires_at := some 86400, is_used := true }
      (by decide) rfl rfl,
   (C3_at_most_one_live_token
      { users := [],
        tokens := [{ id := 1, user_id := 1,
                     token_type := TokenType.email_verification,
                     token_value := "old", expires_at := some 86400,
                     is_used := false }] }
      1 TokenType.email_verification 2 "new" 0 24).2.2.2.2⟩

/-- C1: with a correct password, login fails with the AccountInactive message
when is_active is false, with the distinct EmailNotVerified message when the
user is active but unverified, and succeeds for an active verified user,
setting last_login to the current time and returning the user with an issued
access token; a lookup miss and a password mismatch both produce the
identical generic "Invalid credentials" failure. -/
theorem C1_login_gating (vp : String → String → Bool) (cat : String → Bool → String)
    (now : Nat) (db : DB) (email password : String) (rm : Bool) :
    (findUserByEmailOrUsername db email = none →
       login vp cat now db email password rm = LoginResult.err "Invalid credentials")
  ∧ (∀ u, findUserByEmailOrUsername db email = some u →
       ((vp password u.hashed_password = false →
          login vp cat now db email password rm = LoginResult.err "Invalid credentials")
      ∧ (vp password u.hashed_password = true → u.is_active = false →
          login vp cat now db email password rm =
            LoginResult.err "Account is deactivated. Please contact support.")
      ∧ (vp password u.hashed_password = true → u.is_active = true →
          u.email_verified = false →
          login vp cat now db email password rm =
            LoginResult.err "Please verify your email before logging in.")
      ∧ (vp password u.hashed_password = true → u.is_active = true →
          u.email_verified = true →
          login vp cat now db email password rm =
            LoginResult.ok
              (updateUser db u.id (fun x => { x with last_login := some now }))
              { u with last_login := some now }
              (cat (toString u.id) rm))))
  ∧ ("Account is deactivated. Please contact support." ≠
        "Please verify your email before logging in."
   ∧ "Account is deactivated. Please contact support." ≠ "Invalid credentials"
   ∧ "Please verify your email before logging in." ≠ "Invalid credentials") := by
  refine ⟨?_, ?_, by decide, by decide, by decide⟩
  · intro h
    simp [login, h]
  · intro u hu
    refine ⟨?_, ?_, ?_, ?_⟩
    · intro hv
      simp [login, hu, hv]
    · intro hv ha
      simp [login, hu, hv, ha]
    · intro hv ha he
      simp [login, hu, hv, ha, he]
    · intro hv ha he
      simp [login, hu, hv, ha, he]

/-- Witness for C1 at a concrete database holding an inactive user, an
unverified user, and an eligible user, with equality as the concrete
password-verification primitive. -/
theorem C1_login_gating_witness :
    login (fun p h => p == h) (fun s _ => s ++ "-token") 99
      { users :=
          [{ id := 1, email := "inactive@x.com", username := "inactive",
             hashed_password := "pw1", is_active := false, email_verified := true },
           { id := 2, email := "unverified@x.com", username := "unverified",
             hashed_password := "pw2", is_active := true, email_verified := false },
           { id := 3, email := "ok@x.com", username := "ok",
             hashed_password := "pw3", is_active := true, email_verified := true }],
        tokens := [] }
      "inactive@x.com" "pw1" false =
      LoginResult.err "Account is deactivated. Please contact support."
  ∧ login (fun p h => p == h) (fun s _ => s ++ "-token") 99
      { users :=
          [{ id := 1, email := "inactive@x.com", username := "inactive",
             hashed_password := "pw1", is_active := false, email_verified := true },
           { id := 2, email := "unverified@x.com", username := "unverified",
             hashed_password := "pw2", is_active := true, email_verified := false },
           { id := 3, email := "ok@x.com", username := "ok",
             hashed_password := "pw3", is_active := true, email_verified := true }],
        tokens := [] }
      "unverified@x.com" "pw2" false =
      LoginResult.err "Please verify your email before logging in." :=
  ⟨((C1_login_gating (fun p h => p == h) (fun s _ => s ++ "-token") 99
      { users :=
          [{ id := 1, email := "inactive@x.com", username := "inactive",
             hashed_password := "pw1", is_active := false, email_verified := true },
           { id := 2, email := "unverified@x.com", username := "unverified",
             hashed_password := "pw2", is_active := true, email_verified := false },
           { id := 3, email := "ok@x.com", username := "ok",
             hashed_password := "pw3", is_active := true, email_verified := true }],
        tokens := [] }
      "inactive@x.com" "pw1" false).2.1
      { id := 1, email := "inactive@x.com", username := "inactive",
        hashed_password := "pw1", is_active := false, email_verified := true }
      (by decide)).2.1 (by decide) rfl,
   ((C1_login_gating (fun p h => p == h) (fun s _ => s ++ "-token") 99
      { users :=
          [{ id := 1, email := "inactive@x.com", username := "inactive",
             hashed_password := "pw1", is_active := false, email_verified := true },
           { id := 2, email := "unverified@x.com", username := "unverified",
             hashed_password := "pw2", is_active := true, email_verified := false },
           { id := 3, email := "ok@x.com", username := "ok",
             hashed_password := "pw3", is_active := true, email_verified := true }],
        tokens := [] }
      "unverified@x.com" "pw2" false).2.1
      { id := 2, email := "unverified@x.com", username := "unverified",
        hashed_password := "pw2", is_active := true, email_verified := false }
      (by decide)).2.2.1 (by decide) rfl rfl⟩

/-- C6 evaluation: the users resend-verification operation rejects an
already-verified caller with 400 "Email already verified" as claimed, but its
get_current_verified_user dependency rejects every unverified caller with 403
"Please verify your email first" before the handler runs, so no caller ever
reaches the success path — there is no authenticated unverified user for whom
the operation succeeds, contrary to the claim and to the handler's own
docstring. -/
theorem C6_resend_verification_success_unreachable :
    (∀ db u gt ge se, u.is_verified = true →
       resend_verification_email db u gt ge se =
         EndpointOutcome.httpError 400 "Email already verified")
  ∧ (∀ db u gt ge se, u.is_verified = false →
       resend_verification_email db u gt ge se =
         EndpointOutcome.httpError 403 "Please verify your email first")
  ∧ (∀ db u gt ge se db' m,
       resend_verification_email db u gt ge se ≠ EndpointOutcome.ok db' m) := by
  refine ⟨?_, ?_, ?_⟩
  · intro db u gt ge se h
    simp [resend_verification_email, h]
  · intro db u gt ge se h
    simp [resend_verification_email, h]
  · intro db u gt ge se db' m
    by_cases h : u.is_verified
    · simp [resend_verification_email, h]
    · simp only [Bool.not_eq_true] at h
      simp [resend_verification_email, h]

/-- Witness for C6 at a concrete verified caller and a concrete unverified
caller. -/
theorem C6_resend_verification_success_unreachable_witness :
    resend_verification_email { users := [], tokens := [] }
      { id := 1, email := "v@x.com", is_verified := true } "tok" 86400
      (fun _ _ _ => true) =
      EndpointOutcome.httpError 400 "Email already verified"
  ∧ resend_verification_email { users := [], tokens := [] }
      { id := 2, email := "u@x.com", is_verified := false } "tok" 86400
      (fun _ _ _ => true) =
      EndpointOutcome.httpError 403 "Please verify your email first" :=
  ⟨C6_resend_verification_success_unreachable.1 { users := [], tokens := [] }
     { id := 1, email := "v@x.com", is_verified := true } "tok" 86400
     (fun _ _ _ => true) rfl,
   C6_resend_verification_success_unreachable.2.1 { users := [], tokens := [] }
     { id := 2, email := "u@x.com", is_verified := false } "tok" 86400
     (fun _ _ _ => true) rfl⟩

/-- C5 evaluation: AuthService.signup contains no TikTok-handle uniqueness
check: its only raised failures are the duplicate-email message and the
password-strength messages, it can never return successfully in this source
(its username-generation helper reads an out-of-scope variable), and at a
concrete creator signup whose handle is already registered to another user it
raises the NameError instead of any DuplicateHandle failure. -/
theorem C5_signup_lacks_duplicate_handle_check :
    (∀ db r hp nuid ntid tv now sv m,
        signup db r hp nuid ntid tv now sv = SignupResult.err m →
        m = "Email already registered" ∨ m = (validate_password_strength r.password).2)
  ∧ (∀ db r hp nuid ntid tv now sv db' u msg,
        signup db r hp nuid ntid tv now sv ≠ SignupResult.ok db' u msg)
  ∧ signup
      { users := [{ id := 1, email := "first@x.com", role := UserRole.creator,
                    tiktok_username := some "taken" }], tokens := [] }
      { email := "second@x.com", password := "ValidPass1", role := UserRole.creator,
        full_name := some "New Creator", tiktok_username := some "taken" }
      (fun p => p) 2 1 "tv" 0 (fun _ _ _ => true) =
      SignupResult.crash "NameError: name db is not defined" := by
  refine ⟨?_, ?_, by decide⟩
  · intro db r hp nuid ntid tv now sv m h
    simp only [signup, _generate_username] at h
    by_cases h1 : (db.users.find? (fun u => u.email == r.email)).isSome
    · rw [if_pos h1] at h
      cases h
      exact Or.inl rfl
    · rw [if_neg h1] at h
      by_cases h2 : (validate_password_strength r.password).1
      · simp [h2] at h
      · simp only [h2, Bool.not_false, if_pos] at h
        cases h
        exact Or.inr rfl
  · intro db r hp nuid ntid tv now sv db' u msg
    simp only [signup, _generate_username]
    by_cases h1 : (db.users.find? (fun u => u.email == r.email)).isSome
    · simp [h1]
    · by_cases h2 : (validate_password_strength r.password).1
      · simp [h1, h2]
      · simp [h1, h2]

/-- Witness for C5: the failure-taxonomy clause applied at a concrete
duplicate-email signup, and the no-success clause at a concrete input. -/
theorem C5_signup_lacks_duplicate_handle_check_witness :
    ("Email already registered" = "Email already registered"
      ∨ "Email already registered" =
          (validate_password_strength "ValidPass1").2)
  ∧ signup { users := [{ id := 1, email := "dup@x.com" }], tokens := [] }
      { email := "dup@x.com", password := "ValidPass1", role := UserRole.creator }
      (fun p => p) 2 1 "tv" 0 (fun _ _ _ => true) ≠
      SignupResult.ok { users := [], tokens := [] } { id := 2, email := "dup@x.com" }
        "Account created successfully. Please check your email to verify your account." :=
  ⟨C5_signup_lacks_duplicate_handle_check.1
     { users := [{ id := 1, email := "dup@x.com" }], tokens := [] }
     { email := "dup@x.com", password := "ValidPass1", role := UserRole.creator }
     (fun p => p) 2 1 "tv" 0 (fun _ _ _ => true) "Email already registered" (by decide),
   C5_signup_lacks_duplicate_handle_check.2.1
     { users := [{ id := 1, email := "dup@x.com" }], tokens := [] }
     { email := "dup@x.com", password := "ValidPass1", role := UserRole.creator }
     (fun p => p) 2 1 "tv" 0 (fun _ _ _ => true) { users := [], tokens := [] }
     { id := 2, email := "dup@x.com" }
     "Account created successfully. Please check your email to verify your account."⟩

/-- A token satisfying the verify_email lookup predicate carries the looked-up
value. -/
theorem evTokenPred_eq_value {tval : String} {t : UserToken}
    (h : evTokenPred tval t = true) : t.token_value = tval := by
  simp only [evTokenPred, Bool.and_eq_true, beq_iff_eq] at h
  exact h.1.1

/-- Once the first unused email_verification token with a given value is
marked used, no token with that value passes the lookup predicate any more,
provided token values are pairwise distinct (the token_value column is
UNIQUE). -/
theorem find?_markFirstTokenUsed_eq_none (tval : String) :
    ∀ l : List UserToken, (l.map UserToken.token_value).Nodup →
    (l.find? (evTokenPred tval)).isSome = true →
    (markFirstTokenUsed (evTokenPred tval) l).find? (evTokenPred tval) = none := by
  intro l
  induction l with
  | nil => intro _ hs; simp at hs
  | cons t ts ih =>
    intro hnd hs
    rw [List.map_cons, List.nodup_cons] at hnd
    by_cases hp : evTokenPred tval t = true
    · rw [markFirstTokenUsed, if_pos hp]
      rw [List.find?_cons_of_neg _ (by simp [evTokenPred])]
      rw [List.find?_eq_none]
      intro x hx hpx
      exact hnd.1 (List.mem_map.mpr ⟨x, hx,
        (evTokenPred_eq_value hpx).trans (evTokenPred_eq_value hp).symm⟩)
    · rw [markFirstTokenUsed, if_neg hp]
      rw [List.find?_cons_of_neg _ hp]
      rw [List.find?_cons_of_neg _ hp] at hs
      exact ih hnd.2 hs

/-- C2: if verify_email succeeds on a token value (marking that token used and
the owner verified), then a second verify_email with the same value against
the resulting state fails with "Invalid verification token", because the
lookup only considers unused tokens.  Token values are assumed pairwise
distinct, as enforced by the UNIQUE constraint on the token_value column. -/
theorem C2_verify_email_single_shot (now now2 : Nat) (db db2 : DB) (tval : String)
    (u : User) (hnd : (db.tokens.map UserToken.token_value).Nodup)
    (h : verify_email now db tval = VerifyResult.ok db2 u) :
    verify_email now2 db2 tval = VerifyResult.err "Invalid verification token" := by
  have hfind : db2.tokens.find? (evTokenPred tval) = none := by
    unfold verify_email at h
    split at h
    · cases h
    · rename_i tok hf
      split at h
      · cases h
      · split at h
        · cases h
        · rename_i user hu
          split at h
          · cases h
          · cases h
            exact find?_markFirstTokenUsed_eq_none tval db.tokens hnd
              (by rw [hf]; rfl)
  unfold verify_email
  rw [hfind]

/-- Witness for C2: a concrete single-user, single-token database on which
verification succeeds and the replay fails. -/
theorem C2_verify_email_single_shot_witness :
    verify_email 50
      { users := [{ id := 1, email := "a@x.com", email_verified := true,
                    profile_completion_percentage := 40 }],
        tokens := [{ id := 1, user_id := 1,
                     token_type := TokenType.email_verification,
                     token_value := "tok32", expires_at := some 86400,
                     is_used := true }] }
      "tok32" = VerifyResult.err "Invalid verification token" :=
  C2_verify_email_single_shot 0 50
    { users := [{ id := 1, email := "a@x.com", email_verified := false,
                  profile_completion_percentage := 30 }],
      tokens := [{ id := 1, user_id := 1,
                   token_type := TokenType.email_verification,
                   token_value := "tok32", expires_at := some 86400,
                   is_used := false }] }
    { users := [{ id := 1, email := "a@x.com", email_verified := true,
                  profile_completion_percentage := 40 }],
      tokens := [{ id := 1, user_id := 1,
                   token_type := TokenType.email_verification,
                   token_value := "tok32", expires_at := some 86400,
                   is_used := true }] }
    "tok32"
    { id := 1, email := "a@x.com", email_verified := true,
      profile_completion_percentage := 40 }
    (by decide) (by decide)

end LaunchpadUserService
